import Mathlib

/-!
Shallow embedding of the `text-summarizer` data pipeline
(`src/textsummarizer/...`): the download helper (`utils/core.py`),
the S3 URI handling and context management (`dbhandler/s3_handler.py`,
`dbhandler/base_handler.py`), the configuration accessor
(`config/configuration.py`), the ingestion persist step
(`components/data_ingestion.py`) and the train/val/test split
(`components/data_transformation.py`).

Paths, URLs and URIs are modelled as `List Char`; exceptions as the
inductive `PyErr`, whose constructor `tsError` models the project-wide
`TextSummarizerError` wrapper that captures the original cause.
-/

/-- Python exception values relevant to the embedded code.
`tsError e` models `TextSummarizerError(e, logger)`: the single project
error kind wrapping the underlying cause `e`. -/
inductive PyErr where
  | fileNotFoundError (path : List Char)
  | valueError (msg : List Char)
  | requestError (code : Nat)
  | tsError (cause : PyErr)
deriving DecidableEq, Repr

/-- Strip every `TextSummarizerError` wrapper and return the original cause. -/
def rootCause : PyErr → PyErr
  | .tsError e => rootCause e
  | e => e

/-- `leadsWith pat s` is true when `pat` is an initial segment of `s`. -/
def leadsWith : List Char → List Char → Bool
  | [], _ => true
  | _ :: _, [] => false
  | p :: ps, c :: cs => p == c && leadsWith ps cs

/-- `occursIn pat s` models Python `pat in s`: `pat` occurs contiguously in `s`. -/
def occursIn (pat : List Char) : List Char → Bool
  | [] => pat.isEmpty
  | c :: rest => leadsWith pat (c :: rest) || occursIn pat rest

/-- `replaceSub pat rep s` models Python `s.replace(pat, rep)` for a nonempty
`pat`: every non-overlapping occurrence, scanned left to right, is replaced. -/
def replaceSub (pat rep : List Char) : List Char → List Char
  | [] => []
  | c :: rest =>
    if h : 0 < pat.length ∧ leadsWith pat (c :: rest) = true then
      rep ++ replaceSub pat rep (List.drop pat.length (c :: rest))
    else
      c :: replaceSub pat rep rest
termination_by s => s.length
decreasing_by
  · simp only [List.length_drop, List.length_cons]
    omega
  · simp only [List.length_cons]
    omega

/-- The marker `"github.com"` tested by `download_file`. -/
def githubMarker : List Char :=
  ['g', 'i', 't', 'h', 'u', 'b', '.', 'c', 'o', 'm']

/-- The marker `"/blob/"` tested and replaced by `download_file`. -/
def blobMarker : List Char :=
  ['/', 'b', 'l', 'o', 'b', '/']

/-- The replacement `"/raw/"` used by `download_file`. -/
def rawMarker : List Char :=
  ['/', 'r', 'a', 'w', '/']

/-- `utils/core.py::download_file`, URL-rewrite step:
`if "github.com" in url and "/blob/" in url: url = url.replace("/blob/", "/raw/")`. -/
def convertGithubUrl (url : List Char) : List Char :=
  if occursIn githubMarker url && occursIn blobMarker url then
    replaceSub blobMarker rawMarker url
  else
    url

/-- Observable outcome of one `download_file` call: the URLs issued to the
network layer in order, the delays slept between attempts, the raised
exception (if any), and whether the destination file was written. -/
structure DLRun where
  requests : List (List Char)
  sleeps : List ℚ
  raised : Option PyErr
  wrote : Bool
deriving DecidableEq, Repr

/-- The retry loop of `utils/core.py::download_file`
(`for attempt in range(1, retries + 1)`), with the network modelled by the
oracle `net url attempt`.  `remaining` counts the loop iterations still to
run, the current one included; on failure with further iterations left the
code sleeps `delay` and retries, on the last iteration it raises
`TextSummarizerError(e)` wrapping the last underlying error. -/
def downloadLoop (net : List Char → Nat → Except PyErr Unit) (url : List Char)
    (delay : ℚ) (attempt : Nat) : Nat → DLRun
  | 0 => ⟨[], [], none, false⟩
  | remaining + 1 =>
    match net url attempt with
    | .ok _ => ⟨[url], [], none, true⟩
    | .error e =>
      if remaining = 0 then
        ⟨[url], [], some (.tsError e), false⟩
      else
        let r := downloadLoop net url delay (attempt + 1) remaining
        ⟨url :: r.requests, delay :: r.sleeps, r.raised, r.wrote⟩

/-- `utils/core.py::download_file`: rewrites a GitHub blob URL to its raw
form, short-circuits when the destination file already exists, otherwise
runs the retry loop starting at attempt 1. -/
def download_file (net : List Char → Nat → Except PyErr Unit) (url : List Char)
    (destExists : Bool) (retries : Nat) (delay : ℚ) : DLRun :=
  let u := convertGithubUrl url
  if destExists then ⟨[], [], none, false⟩
  else downloadLoop net u delay 1 retries

lemma downloadLoop_requests_const (net : List Char → Nat → Except PyErr Unit)
    (url : List Char) (delay : ℚ) :
    ∀ remaining attempt, ∀ u ∈ (downloadLoop net url delay attempt remaining).requests, u = url := by
  intro remaining
  induction remaining with
  | zero => intro attempt u hu; simp [downloadLoop] at hu
  | succ r ih =>
    intro attempt u hu
    simp only [downloadLoop] at hu
    cases hnet : net url attempt with
    | ok v => rw [hnet] at hu; simp at hu; exact hu
    | error e =>
      rw [hnet] at hu
      by_cases hr : r = 0
      · simp [hr] at hu; exact hu
      · simp [hr] at hu
        rcases hu with h | h
        · exact h
        · exact ih (attempt + 1) u h

lemma downloadLoop_all_fail (net : List Char → Nat → Except PyErr Unit)
    (url : List Char) (delay : ℚ) :
    ∀ remaining attempt, 0 < remaining →
    (∀ k, attempt ≤ k → k < attempt + remaining → ∃ e, net url k = .error e) →
    (downloadLoop net url delay attempt remaining).requests.length = remaining ∧
    (downloadLoop net url delay attempt remaining).sleeps =
      List.replicate (remaining - 1) delay ∧
    (∃ e, net url (attempt + remaining - 1) = .error e ∧
      (downloadLoop net url delay attempt remaining).raised = some (.tsError e)) ∧
    (downloadLoop net url delay attempt remaining).wrote = false := by
  intro remaining
  induction remaining with
  | zero => intro attempt h; omega
  | succ r ih =>
    intro attempt _ hfail
    obtain ⟨e, he⟩ := hfail attempt (le_refl _) (by omega)
    by_cases hr : r = 0
    · subst hr
      refine ⟨?_, ?_, ⟨e, ?_, ?_⟩, ?_⟩ <;> simp [downloadLoop, he]
    · have hrec := ih (attempt + 1) (by omega)
        (fun k hk1 hk2 => hfail k (by omega) (by omega))
      refine ⟨?_, ?_, ?_, ?_⟩
      · simp only [downloadLoop, he, if_neg hr, List.length_cons]
        rw [hrec.1]
      · simp only [downloadLoop, he, if_neg hr]
        have : r + 1 - 1 = (r - 1) + 1 := by omega
        rw [this, List.replicate_succ, hrec.2.1]
      · obtain ⟨e2, he2, hr2⟩ := hrec.2.2.1
        refine ⟨e2, ?_, ?_⟩
        · have : attempt + (r + 1) - 1 = attempt + 1 + r - 1 := by omega
          rw [this]; exact he2
        · simp only [downloadLoop, he, if_neg hr]
          exact hr2
      · simp only [downloadLoop, he, if_neg hr]
        exact hrec.2.2.2

lemma downloadLoop_first_success (net : List Char → Nat → Except PyErr Unit)
    (url : List Char) (delay : ℚ) :
    ∀ remaining attempt j, attempt ≤ j → j < attempt + remaining →
    net url j = .ok () →
    (∀ k, attempt ≤ k → k < j → net url k ≠ .ok ()) →
    (downloadLoop net url delay attempt remaining).requests.length = j + 1 - attempt ∧
    (downloadLoop net url delay attempt remaining).raised = none ∧
    (downloadLoop net url delay attempt remaining).wrote = true := by
  intro remaining
  induction remaining with
  | zero => intro attempt j h1 h2; omega
  | succ r ih =>
    intro attempt j hle hlt hok hbefore
    by_cases hj : j = attempt
    · subst hj
      refine ⟨?_, ?_, ?_⟩ <;> simp [downloadLoop, hok]
    · have hlt' : attempt < j := by omega
      have hfail : ∃ e, net url attempt = .error e := by
        cases hnet : net url attempt with
        | ok v =>
          exfalso
          exact hbefore attempt (le_refl _) hlt' (by cases v; exact hnet)
        | error e => exact ⟨e, rfl⟩
      obtain ⟨e, he⟩ := hfail
      have hr : r ≠ 0 := by omega
      have hrec := ih (attempt + 1) j (by omega) (by omega) hok
        (fun k hk1 hk2 => hbefore k (by omega) hk2)
      refine ⟨?_, ?_, ?_⟩
      · simp only [downloadLoop, he, if_neg hr, List.length_cons]
        rw [hrec.1]
        omega
      · simp only [downloadLoop, he, if_neg hr]
        exact hrec.2.1
      · simp only [downloadLoop, he, if_neg hr]
        exact hrec.2.2

/-- An example GitHub blob URL used to witness the rewrite claim. -/
def blobUrlExample : List Char := githubMarker ++ blobMarker ++ ['x']

/-- C2: with the destination absent, if every network attempt fails then
`download_file` makes exactly `retries` attempts, sleeps the fixed `delay`
between consecutive attempts (`retries - 1` sleeps), and raises a
`TextSummarizerError` wrapping the last underlying error; if some attempt
succeeds and the attempts before it failed, exactly that many attempts are
made and no error is raised. -/
theorem download_retry_exhaustion (net : List Char → Nat → Except PyErr Unit)
    (url : List Char) (retries : Nat) (delay : ℚ) (hr : 1 ≤ retries) :
    ((∀ k, 1 ≤ k → k ≤ retries → ∃ e, net (convertGithubUrl url) k = .error e) →
      (download_file net url false retries delay).requests.length = retries ∧
      (download_file net url false retries delay).sleeps =
        List.replicate (retries - 1) delay ∧
      ∃ e, net (convertGithubUrl url) retries = .error e ∧
        (download_file net url false retries delay).raised = some (.tsError e)) ∧
    (∀ j, 1 ≤ j → j ≤ retries → net (convertGithubUrl url) j = .ok () →
      (∀ k, 1 ≤ k → k < j → net (convertGithubUrl url) k ≠ .ok ()) →
      (download_file net url false retries delay).requests.length = j ∧
      (download_file net url false retries delay).raised = none) := by
  constructor
  · intro hfail
    have h := downloadLoop_all_fail net (convertGithubUrl url) delay retries 1
      (by omega) (fun k hk1 hk2 => hfail k hk1 (by omega))
    have hidx : 1 + retries - 1 = retries := by omega
    rw [hidx] at h
    simp only [download_file, Bool.false_eq_true, if_false]
    exact ⟨h.1, h.2.1, h.2.2.1⟩
  · intro j hj1 hj2 hok hbefore
    have h := downloadLoop_first_success net (convertGithubUrl url) delay retries 1 j
      hj1 (by omega) hok (fun k hk1 hk2 => hbefore k hk1 hk2)
    simp only [download_file, Bool.false_eq_true, if_false]
    refine ⟨?_, h.2.1⟩
    rw [h.1]; omega

/-- Witness for C2 at a network that always fails, `retries = 3`, `delay = 2`. -/
theorem download_retry_exhaustion_witness :
    (download_file (fun _ _ => Except.error (PyErr.requestError 7)) ['u'] false 3 2).requests.length = 3 ∧
    (download_file (fun _ _ => Except.error (PyErr.requestError 7)) ['u'] false 3 2).sleeps =
      List.replicate 2 (2 : ℚ) ∧
    (download_file (fun _ _ => Except.error (PyErr.requestError 7)) ['u'] false 3 2).raised =
      some (.tsError (.requestError 7)) := by
  have h := (download_retry_exhaustion (fun _ _ => Except.error (PyErr.requestError 7))
    ['u'] 3 2 (by omega)).1 (fun k _ _ => ⟨PyErr.requestError 7, rfl⟩)
  obtain ⟨h1, h2, e, he, hraised⟩ := h
  have he' : e = PyErr.requestError 7 := by
    injection he with h; exact h.symm
  exact ⟨h1, h2, by rw [hraised, he']⟩

/-- C5: every URL issued to the network layer by `download_file` is the
converted source URL; a URL not containing both `"github.com"` and
`"/blob/"` is passed through unchanged, and a URL containing both is the
result of replacing `"/blob/"` by `"/raw/"`. -/
theorem download_url_rewrite (net : List Char → Nat → Except PyErr Unit)
    (url : List Char) (destExists : Bool) (retries : Nat) (delay : ℚ) :
    (∀ u ∈ (download_file net url destExists retries delay).requests,
      u = convertGithubUrl url) ∧
    (¬ (occursIn githubMarker url = true ∧ occursIn blobMarker url = true) →
      convertGithubUrl url = url) ∧
    ((occursIn githubMarker url = true ∧ occursIn blobMarker url = true) →
      convertGithubUrl url = replaceSub blobMarker rawMarker url) := by
  refine ⟨?_, ?_, ?_⟩
  · intro u hu
    cases destExists with
    | false =>
      simp only [download_file, Bool.false_eq_true, if_false] at hu
      exact downloadLoop_requests_const net (convertGithubUrl url) delay retries 1 u hu
    | true => simp [download_file] at hu
  · intro hnot
    unfold convertGithubUrl
    rw [if_neg]
    simp only [Bool.and_eq_true]
    exact hnot
  · intro hboth
    unfold convertGithubUrl
    rw [if_pos]
    simp only [Bool.and_eq_true]
    exact hboth

/-- Witness for C5 at the blob URL `"github.com/blob/x"` and a non-blob URL. -/
theorem download_url_rewrite_witness :
    ((occursIn githubMarker blobUrlExample = true ∧
        occursIn blobMarker blobUrlExample = true) ∧
      convertGithubUrl blobUrlExample = replaceSub blobMarker rawMarker blobUrlExample) ∧
    (¬ (occursIn githubMarker ['u'] = true ∧ occursIn blobMarker ['u'] = true) ∧
      convertGithubUrl ['u'] = ['u']) := by
  refine ⟨⟨by decide, ?_⟩, ⟨by decide, ?_⟩⟩
  · exact (download_url_rewrite (fun _ _ => Except.ok ()) blobUrlExample false 1 0).2.2
      (by decide)
  · exact (download_url_rewrite (fun _ _ => Except.ok ()) ['u'] false 1 0).2.1
      (by decide)

/-- C6: when the destination file already exists, `download_file` issues no
network request, raises nothing, and does not write the destination file. -/
theorem download_skip_when_exists (net : List Char → Nat → Except PyErr Unit)
    (url : List Char) (retries : Nat) (delay : ℚ) :
    download_file net url true retries delay = ⟨[], [], none, false⟩ := by
  simp [download_file]

/-- The `"s3://"` scheme tested by `S3Handler._parse_s3_uri`. -/
def s3Scheme : List Char := ['s', '3', ':', '/', '/']

/-- The message text `"Invalid S3 URI: "` of the `ValueError` raised by
`S3Handler._parse_s3_uri`. -/
def invalidS3UriMsg : List Char :=
  ['I', 'n', 'v', 'a', 'l', 'i', 'd', ' ', 'S', '3', ' ', 'U', 'R', 'I', ':', ' ']

/-- Python `s.split(sep, 1)` restricted to its two-part outcome: `some (a, b)`
when `s = a ++ sep :: b` with `sep ∉ a`, `none` when `sep` does not occur. -/
def splitOnceAt (sep : Char) : List Char → Option (List Char × List Char)
  | [] => none
  | c :: rest =>
    if c = sep then some ([], rest)
    else
      match splitOnceAt sep rest with
      | none => none
      | some (a, b) => some (c :: a, b)

/-- `s3_handler.py::S3Handler._parse_s3_uri`: requires the `"s3://"` scheme,
then splits the remainder at the first `'/'` into bucket and key; on either
failure raises `ValueError(f"Invalid S3 URI: {s3_uri}")`. -/
def parse_s3_uri (s3_uri : List Char) : Except PyErr (List Char × List Char) :=
  if leadsWith s3Scheme s3_uri = true then
    match splitOnceAt '/' (List.drop 5 s3_uri) with
    | some (bucket, key) => .ok (bucket, key)
    | none => .error (.valueError (invalidS3UriMsg ++ s3_uri))
  else
    .error (.valueError (invalidS3UriMsg ++ s3_uri))

/-- `entity/config_entity.py::S3HandlerConfig`. -/
structure S3HandlerConfig where
  root_dir : List Char
  bucket_name : List Char
  aws_region : List Char
deriving DecidableEq, Repr

/-- The object write performed by a stream operation: the bucket and key
passed to `put_object`. -/
structure S3Put where
  bucket : List Char
  key : List Char
deriving DecidableEq, Repr

/-- The URI string `f"s3://{bucket}/{key}"` formed by the stream operations. -/
def mkS3Uri (bucket key : List Char) : List Char :=
  s3Scheme ++ bucket ++ '/' :: key

/-- `S3Handler.stream_csv`: puts the serialized table at
`(config.bucket_name, s3_key)` and returns `f"s3://{bucket}/{key}"`. -/
def stream_csv (config : S3HandlerConfig) (s3_key : List Char) : S3Put × List Char :=
  (⟨config.bucket_name, s3_key⟩, mkS3Uri config.bucket_name s3_key)

/-- `S3Handler.stream_yaml`: same addressing and returned URI as `stream_csv`. -/
def stream_yaml (config : S3HandlerConfig) (s3_key : List Char) : S3Put × List Char :=
  (⟨config.bucket_name, s3_key⟩, mkS3Uri config.bucket_name s3_key)

/-- `S3Handler.stream_object`: same addressing and returned URI as `stream_csv`. -/
def stream_object (config : S3HandlerConfig) (s3_key : List Char) : S3Put × List Char :=
  (⟨config.bucket_name, s3_key⟩, mkS3Uri config.bucket_name s3_key)

/-- `S3Handler.stream_npy`: same addressing and returned URI as `stream_csv`. -/
def stream_npy (config : S3HandlerConfig) (s3_key : List Char) : S3Put × List Char :=
  (⟨config.bucket_name, s3_key⟩, mkS3Uri config.bucket_name s3_key)

lemma leadsWith_append (p t : List Char) : leadsWith p (p ++ t) = true := by
  induction p with
  | nil => rfl
  | cons c cs ih => simp [leadsWith, ih]

lemma splitOnceAt_of_not_mem (sep : Char) (a b : List Char) (ha : sep ∉ a) :
    splitOnceAt sep (a ++ sep :: b) = some (a, b) := by
  induction a with
  | nil => simp [splitOnceAt]
  | cons c cs ih =>
    have hc : c ≠ sep := fun h => ha (h ▸ List.mem_cons_self c cs)
    have hcs : sep ∉ cs := fun h => ha (List.mem_cons_of_mem c h)
    simp only [List.cons_append, splitOnceAt, if_neg hc, List.append_eq, ih hcs]

lemma parse_mkS3Uri (bucket key : List Char) (hb : '/' ∉ bucket) :
    parse_s3_uri (mkS3Uri bucket key) = .ok (bucket, key) := by
  unfold parse_s3_uri mkS3Uri
  rw [List.append_assoc, if_pos (leadsWith_append s3Scheme (bucket ++ '/' :: key))]
  have h5 : (5 : Nat) = s3Scheme.length := rfl
  rw [h5, List.drop_left, splitOnceAt_of_not_mem '/' bucket key hb]

/-- C7: a location string lacking the `"s3://"` scheme, or whose remainder
cannot be split at a `'/'`, makes `_parse_s3_uri` fail with a `ValueError`
(a format error, not a generic exception); a well-formed
`"s3://bucket/key"` with no `'/'` in the bucket parses to `(bucket, key)`. -/
theorem parse_s3_uri_spec (s bucket key : List Char) :
    (leadsWith s3Scheme s = false →
      parse_s3_uri s = .error (.valueError (invalidS3UriMsg ++ s))) ∧
    (splitOnceAt '/' (List.drop 5 s) = none →
      parse_s3_uri s = .error (.valueError (invalidS3UriMsg ++ s))) ∧
    ('/' ∉ bucket → parse_s3_uri (mkS3Uri bucket key) = .ok (bucket, key)) := by
  refine ⟨?_, ?_, parse_mkS3Uri bucket key⟩
  · intro hs
    unfold parse_s3_uri
    rw [if_neg]
    simp [hs]
  · intro hsplit
    unfold parse_s3_uri
    by_cases hlead : leadsWith s3Scheme s = true
    · rw [if_pos hlead, hsplit]
    · rw [if_neg hlead]

/-- Witness for C7: a scheme-less string, a separator-less string, and the
well-formed `"s3://b/k"`. -/
theorem parse_s3_uri_spec_witness :
    (leadsWith s3Scheme ['x'] = false ∧
      parse_s3_uri ['x'] = .error (.valueError (invalidS3UriMsg ++ ['x']))) ∧
    (splitOnceAt '/' (List.drop 5 (s3Scheme ++ ['b'])) = none ∧
      parse_s3_uri (s3Scheme ++ ['b']) =
        .error (.valueError (invalidS3UriMsg ++ (s3Scheme ++ ['b'])))) ∧
    parse_s3_uri (mkS3Uri ['b'] ['k']) = .ok (['b'], ['k']) := by
  refine ⟨⟨by decide, ?_⟩, ⟨by decide, ?_⟩, ?_⟩
  · exact (parse_s3_uri_spec ['x'] [] []).1 (by decide)
  · exact (parse_s3_uri_spec (s3Scheme ++ ['b']) [] []).2.1 (by decide)
  · exact (parse_s3_uri_spec [] ['b'] ['k']).2.2 (by decide)

/-- C10: for a bucket name containing no `'/'`, parsing the URI returned by
each stream operation (`stream_csv`, `stream_yaml`, `stream_object`,
`stream_npy`) yields back exactly the bucket and key that the operation
wrote to. -/
theorem stream_uri_roundtrip (config : S3HandlerConfig) (s3_key : List Char)
    (hb : '/' ∉ config.bucket_name) :
    ((stream_csv config s3_key).1 = ⟨config.bucket_name, s3_key⟩ ∧
      parse_s3_uri (stream_csv config s3_key).2 =
        .ok ((stream_csv config s3_key).1.bucket, (stream_csv config s3_key).1.key)) ∧
    ((stream_yaml config s3_key).1 = ⟨config.bucket_name, s3_key⟩ ∧
      parse_s3_uri (stream_yaml config s3_key).2 =
        .ok ((stream_yaml config s3_key).1.bucket, (stream_yaml config s3_key).1.key)) ∧
    ((stream_object config s3_key).1 = ⟨config.bucket_name, s3_key⟩ ∧
      parse_s3_uri (stream_object config s3_key).2 =
        .ok ((stream_object config s3_key).1.bucket, (stream_object config s3_key).1.key)) ∧
    ((stream_npy config s3_key).1 = ⟨config.bucket_name, s3_key⟩ ∧
      parse_s3_uri (stream_npy config s3_key).2 =
        .ok ((stream_npy config s3_key).1.bucket, (stream_npy config s3_key).1.key)) :=
  ⟨⟨rfl, parse_mkS3Uri config.bucket_name s3_key hb⟩,
   ⟨rfl, parse_mkS3Uri config.bucket_name s3_key hb⟩,
   ⟨rfl, parse_mkS3Uri config.bucket_name s3_key hb⟩,
   ⟨rfl, parse_mkS3Uri config.bucket_name s3_key hb⟩⟩

/-- Witness for C10 at bucket `"b"`, key `"k/k2"`. -/
theorem stream_uri_roundtrip_witness :
    ('/' ∉ (⟨[], ['b'], []⟩ : S3HandlerConfig).bucket_name) ∧
    parse_s3_uri (stream_csv ⟨[], ['b'], []⟩ ['k', '/', 'q']).2 =
      .ok (['b'], ['k', '/', 'q']) := by
  refine ⟨by decide, ?_⟩
  have h := (stream_uri_roundtrip ⟨[], ['b'], []⟩ ['k', '/', 'q'] (by decide)).1.2
  simpa using h

/-- Observable events of the handler's context-management methods. -/
inductive HEvent where
  | entered
  | exited
  | closed
deriving DecidableEq, Repr

/-- `s3_handler.py::S3Handler`: its state is its configuration. -/
structure S3Handler where
  config : S3HandlerConfig
deriving DecidableEq, Repr

/-- `S3Handler.__enter__`: logs and returns `self`. -/
def S3Handler.enterImpl (h : S3Handler) : S3Handler × List HEvent :=
  (h, [.entered])

/-- `S3Handler.__exit__`: logs `"S3Handler context exited."` and returns;
it overrides `DBHandler.__exit__` and does not call `close`. -/
def S3Handler.exitImpl (_h : S3Handler) (_excInfo : Option PyErr) : List HEvent :=
  [.exited]

/-- `S3Handler.close`: a no-op for S3 that just logs. -/
def S3Handler.closeImpl (_h : S3Handler) : List HEvent :=
  [.closed]

/-- `base_handler.py::DBHandler.__exit__`: calls `self.close()` (whose run is
`closeRun`) and wraps any error it raises in a `TextSummarizerError`. -/
def DBHandler.exitRun (closeRun : Except PyErr (List HEvent))
    (_excInfo : Option PyErr) : Except PyErr (List HEvent) :=
  match closeRun with
  | .ok evs => .ok evs
  | .error e => .error (.tsError e)

/-- The Python `with handler:` statement specialized to `S3Handler`: enter,
run the body, then call `S3Handler.__exit__` on both the normal path and the
error path (the exit method returns `None`, so an error is not suppressed). -/
def withS3Handler (h : S3Handler)
    (body : S3Handler → Except PyErr Unit × List HEvent) :
    Except PyErr Unit × List HEvent :=
  let (h1, e1) := h.enterImpl
  let (res, e2) := body h1
  match res with
  | .ok _ => (.ok (), e1 ++ e2 ++ h1.exitImpl none)
  | .error e => (.error e, e1 ++ e2 ++ h1.exitImpl (some e))

/-- Counterexample to C4: with a trivial body that returns normally, the
scope over the S3 handler produces the trace `[entered, exited]` — leaving
the scope does not invoke `close` (no `closed` event), because
`S3Handler.__exit__` overrides the base exit with a logging-only method. -/
theorem s3_exit_no_close_counterexample :
    (withS3Handler ⟨⟨[], ['b'], []⟩⟩ (fun _ => (.ok (), []))).2 =
      [HEvent.entered, HEvent.exited] ∧
    HEvent.closed ∉ (withS3Handler ⟨⟨[], ['b'], []⟩⟩ (fun _ => (.ok (), []))).2 := by
  decide

/-- C4 amended: entering the scope returns the handler itself; on every exit
path (normal or error) the S3 handler's own exit method runs, the body's
outcome is preserved, and the exit contributes only an `exited` event —
never a `closed` one.  The close-on-exit behavior lives only in
`DBHandler.__exit__`, which runs `close` and wraps a close-time error. -/
theorem s3_scope_contract (h : S3Handler)
    (body : S3Handler → Except PyErr Unit × List HEvent) :
    h.enterImpl = (h, [HEvent.entered]) ∧
    (withS3Handler h body).1 = (body h).1 ∧
    (withS3Handler h body).2 = HEvent.entered :: (body h).2 ++ [HEvent.exited] ∧
    (∀ excInfo, h.exitImpl excInfo = [HEvent.exited]) ∧
    (∀ excInfo, DBHandler.exitRun (.ok (h.closeImpl)) excInfo = .ok [HEvent.closed]) ∧
    (∀ e excInfo, DBHandler.exitRun (.error e) excInfo = .error (.tsError e)) := by
  refine ⟨rfl, ?_, ?_, fun _ => rfl, fun _ => rfl, fun _ _ => rfl⟩ <;>
  · rcases hb : body h with ⟨res, evs⟩
    cases res <;>
      simp [withS3Handler, hb, S3Handler.enterImpl, S3Handler.exitImpl]

/-- `constants.py::TRANSFORM_ROOT = "data_transformation"`. -/
def TRANSFORM_ROOT : List Char :=
  ['d', 'a', 't', 'a', '_', 't', 'r', 'a', 'n', 's', 'f', 'o', 'r', 'm', 'a', 't', 'i', 'o', 'n']

/-- Path concatenation `a / b` on POSIX path strings. -/
def pathJoin (a b : List Char) : List Char :=
  a ++ '/' :: b

/-- The `data_transformation` section of `config.yaml` used by
`ConfigurationManager.get_data_transformation_config`. -/
structure TransformationDoc where
  train_filename : List Char
  val_filename : List Char
  test_filename : List Char
deriving DecidableEq, Repr

/-- The `tokenizer` subsection of `params.yaml::data_transformation`. -/
structure TokenizerParams where
  pretrained_model_name : List Char
  max_input_length : Nat
  max_target_length : Nat
deriving DecidableEq, Repr

/-- The `data_split` subsection of `params.yaml::data_transformation`. -/
structure DataSplitParams where
  train_size : ℚ
  val_size : ℚ
  test_size : ℚ
  random_state : Nat
  stratify : Bool
deriving DecidableEq, Repr

/-- The `data_transformation` section of `params.yaml`. -/
structure TransformationParams where
  tokenizer : TokenizerParams
  data_split : DataSplitParams
deriving DecidableEq, Repr

/-- The `data_backup` section of `config.yaml`. -/
structure DataBackupDoc where
  local_enabled : Bool
  s3_enabled : Bool
deriving DecidableEq, Repr

/-- `entity/config_entity.py::DataTransformationConfig` (paths already
normalized; the dataclass performs no validation of the split ratios). -/
structure DataTransformationConfig where
  root_dir : List Char
  tokenizer_name : List Char
  max_input_length : Nat
  max_target_length : Nat
  train_filepath : List Char
  val_filepath : List Char
  test_filepath : List Char
  train_size : ℚ
  val_size : ℚ
  test_size : ℚ
  random_state : Nat
  stratify : Bool
  local_enabled : Bool
  s3_enabled : Bool
deriving DecidableEq, Repr

/-- `configuration.py::ConfigurationManager.get_data_transformation_config`:
wires document values and the run-scoped root directory into a
`DataTransformationConfig`.  The source wraps the body in `try/except` only
to re-wrap missing-key errors; with all keys present (as the typed documents
here guarantee) construction always succeeds, and no check of the split
ratios is performed anywhere. -/
def get_data_transformation_config (artifacts_root : List Char)
    (config : TransformationDoc) (params : TransformationParams)
    (data_backup : DataBackupDoc) : DataTransformationConfig :=
  let root_dir := pathJoin artifacts_root TRANSFORM_ROOT
  { root_dir := root_dir
    tokenizer_name := params.tokenizer.pretrained_model_name
    max_input_length := params.tokenizer.max_input_length
    max_target_length := params.tokenizer.max_target_length
    train_filepath := pathJoin root_dir config.train_filename
    val_filepath := pathJoin root_dir config.val_filename
    test_filepath := pathJoin root_dir config.test_filename
    train_size := params.data_split.train_size
    val_size := params.data_split.val_size
    test_size := params.data_split.test_size
    random_state := params.data_split.random_state
    stratify := params.data_split.stratify
    local_enabled := data_backup.local_enabled
    s3_enabled := data_backup.s3_enabled }

/-- Counterexample to C3: the accessor happily constructs a configuration
whose fractions sum to `9/10`, not `1`; construction does not fail. -/
theorem get_dtc_accepts_bad_ratios_counterexample :
    ((get_data_transformation_config [] ⟨[], [], []⟩
        ⟨⟨[], 8, 8⟩, ⟨1/2, 1/5, 1/5, 0, false⟩⟩ ⟨true, true⟩).train_size = 1/2) ∧
    ((get_data_transformation_config [] ⟨[], [], []⟩
        ⟨⟨[], 8, 8⟩, ⟨1/2, 1/5, 1/5, 0, false⟩⟩ ⟨true, true⟩).train_size +
      (get_data_transformation_config [] ⟨[], [], []⟩
        ⟨⟨[], 8, 8⟩, ⟨1/2, 1/5, 1/5, 0, false⟩⟩ ⟨true, true⟩).val_size +
      (get_data_transformation_config [] ⟨[], [], []⟩
        ⟨⟨[], 8, 8⟩, ⟨1/2, 1/5, 1/5, 0, false⟩⟩ ⟨true, true⟩).test_size ≠ 1) := by
  constructor
  · rfl
  · norm_num [get_data_transformation_config]

/-- C3 amended: the accessor copies the three fractions from the parameter
document into the produced configuration unchanged and never validates
their sum — a configuration whose fractions do not sum to `1.0` is
constructed all the same. -/
theorem get_dtc_ratios_passthrough (artifacts_root : List Char)
    (config : TransformationDoc) (params : TransformationParams)
    (data_backup : DataBackupDoc) :
    (get_data_transformation_config artifacts_root config params data_backup).train_size =
      params.data_split.train_size ∧
    (get_data_transformation_config artifacts_root config params data_backup).val_size =
      params.data_split.val_size ∧
    (get_data_transformation_config artifacts_root config params data_backup).test_size =
      params.data_split.test_size :=
  ⟨rfl, rfl, rfl⟩

/-- Select the rows of `ds` at the given indices, in index-list order. -/
def selectRows (ds : List α) (idx : List Nat) : List α :=
  idx.filterMap (fun i => ds[i]?)

/-- Number of rows carved off for the held-out side of a binary split of
`n` rows with fraction `test_size` (the split primitive rounds the test
share up). -/
def nTestRows (test_size : ℚ) (n : Nat) : Nat :=
  (⌈test_size * (n : ℚ)⌉).toNat

/-- Modelled from the spec: the binary split primitive
(`datasets.Dataset.train_test_split`, a library call not part of this
repository).  Per the spec it shuffles with a seeded generator — modelled by
the permutation oracle `shuffle seed n` — and carves the held-out fraction
off the front of the shuffled order, the rest being the train side. -/
def train_test_split (shuffle : Nat → Nat → List Nat) (ds : List α)
    (test_size : ℚ) (seed : Nat) : List α × List α :=
  (selectRows ds ((shuffle seed ds.length).drop (nTestRows test_size ds.length)),
   selectRows ds ((shuffle seed ds.length).take (nTestRows test_size ds.length)))

/-- `data_transformation.py::DataTransformation._split_and_tokenize`: first
carves off the held-out fraction `1 - train_size` with the seeded generator,
then splits that held-out portion into validation and test with fraction
`test_size / (test_size + val_size)` and the same seed, finally mapping the
tokenizer over each partition record-wise. -/
def split_and_tokenize (shuffle : Nat → Nat → List Nat)
    (cfg : DataTransformationConfig) (tok : α → β) (dataset : List α) :
    List β × List β × List β :=
  let train_valtest :=
    train_test_split shuffle dataset (1 - cfg.train_size) cfg.random_state
  let val_test :=
    train_test_split shuffle train_valtest.2
      (cfg.test_size / (cfg.test_size + cfg.val_size)) cfg.random_state
  (train_valtest.1.map tok, val_test.1.map tok, val_test.2.map tok)

lemma selectRows_range (ds : List α) : selectRows ds (List.range ds.length) = ds := by
  induction ds with
  | nil => rfl
  | cons x t ih =>
    simp only [selectRows, List.length_cons, List.range_succ_eq_map,
      List.filterMap_cons, List.getElem?_cons_zero, List.filterMap_map]
    have h1 : ((fun i => (x :: t)[i]?) ∘ Nat.succ) = fun i => t[i]? := by
      funext i
      simp
    rw [h1]
    simpa [selectRows] using ih

lemma selectRows_perm (ds : List α) (idx : List Nat)
    (h : idx.Perm (List.range ds.length)) : (selectRows ds idx).Perm ds := by
  have h2 := List.Perm.filterMap (fun i => ds[i]?) h
  have h3 : selectRows ds (List.range ds.length) = ds := selectRows_range ds
  unfold selectRows at h3 ⊢
  rw [h3] at h2
  exact h2

lemma train_test_split_perm (shuffle : Nat → Nat → List Nat)
    (hperm : ∀ seed n, (shuffle seed n).Perm (List.range n))
    (ds : List α) (test_size : ℚ) (seed : Nat) :
    ((train_test_split shuffle ds test_size seed).1 ++
      (train_test_split shuffle ds test_size seed).2).Perm ds := by
  unfold train_test_split
  simp only
  rw [selectRows, selectRows, ← List.filterMap_append, ← selectRows]
  apply selectRows_perm
  have h1 : ((shuffle seed ds.length).drop (nTestRows test_size ds.length) ++
      (shuffle seed ds.length).take (nTestRows test_size ds.length)).Perm
      (shuffle seed ds.length) := by
    have h0 : ((shuffle seed ds.length).drop (nTestRows test_size ds.length) ++
        (shuffle seed ds.length).take (nTestRows test_size ds.length)).Perm
        ((shuffle seed ds.length).take (nTestRows test_size ds.length) ++
          (shuffle seed ds.length).drop (nTestRows test_size ds.length)) :=
      List.perm_append_comm
    rwa [List.take_append_drop] at h0
  exact h1.trans (hperm seed ds.length)

/-- C1: with the split primitive's shuffling modelled as a seeded
permutation generator, the two-stage split of `_split_and_tokenize` is
deterministic (any generator pointwise equal to it — in particular a second
run of the same one — yields identical partitions), and it partitions the
input: train, validation and test together are a permutation of the input's
records (each record lands in exactly one partition, counted with
multiplicity) and the three lengths sum to the input length. -/
theorem split_partition (shuffle : Nat → Nat → List Nat)
    (hperm : ∀ seed n, (shuffle seed n).Perm (List.range n))
    (cfg : DataTransformationConfig) (tok : α → β) (ds : List α) :
    (∀ shuffle₂, (∀ s n, shuffle₂ s n = shuffle s n) →
      split_and_tokenize shuffle₂ cfg tok ds = split_and_tokenize shuffle cfg tok ds) ∧
    ((split_and_tokenize shuffle cfg tok ds).1 ++
      (split_and_tokenize shuffle cfg tok ds).2.1 ++
      (split_and_tokenize shuffle cfg tok ds).2.2).Perm (ds.map tok) ∧
    (split_and_tokenize shuffle cfg tok ds).1.length +
      (split_and_tokenize shuffle cfg tok ds).2.1.length +
      (split_and_tokenize shuffle cfg tok ds).2.2.length = ds.length := by
  have h1 := train_test_split_perm shuffle hperm ds (1 - cfg.train_size) cfg.random_state
  have h2 := train_test_split_perm shuffle hperm
    (train_test_split shuffle ds (1 - cfg.train_size) cfg.random_state).2
    (cfg.test_size / (cfg.test_size + cfg.val_size)) cfg.random_state
  have hall :
      ((train_test_split shuffle ds (1 - cfg.train_size) cfg.random_state).1 ++
        ((train_test_split shuffle
            (train_test_split shuffle ds (1 - cfg.train_size) cfg.random_state).2
            (cfg.test_size / (cfg.test_size + cfg.val_size)) cfg.random_state).1 ++
          (train_test_split shuffle
            (train_test_split shuffle ds (1 - cfg.train_size) cfg.random_state).2
            (cfg.test_size / (cfg.test_size + cfg.val_size)) cfg.random_state).2)).Perm ds :=
    (List.Perm.append_left _ h2).trans h1
  refine ⟨?_, ?_, ?_⟩
  · intro shuffle₂ hs
    have : shuffle₂ = shuffle := funext fun s => funext fun n => hs s n
    rw [this]
  · have hmap := hall.map tok
    simp only [split_and_tokenize]
    simpa [List.map_append, List.append_assoc] using hmap
  · have hlen := hall.length_eq
    simp only [List.length_append] at hlen
    simp only [split_and_tokenize]
    simp only [List.length_map]
    omega

/-- Witness for C1: the identity generator, ratios `4/5, 1/10, 1/10`, and
the ten-row input `List.range 10`. -/
theorem split_partition_witness :
    ((split_and_tokenize (fun _ n => List.range n)
        ⟨[], [], 8, 8, [], [], [], 4/5, 1/10, 1/10, 0, false, true, true⟩
        id (List.range 10)).1 ++
      (split_and_tokenize (fun _ n => List.range n)
        ⟨[], [], 8, 8, [], [], [], 4/5, 1/10, 1/10, 0, false, true, true⟩
        id (List.range 10)).2.1 ++
      (split_and_tokenize (fun _ n => List.range n)
        ⟨[], [], 8, 8, [], [], [], 4/5, 1/10, 1/10, 0, false, true, true⟩
        id (List.range 10)).2.2).Perm ((List.range 10).map id) ∧
    (split_and_tokenize (fun _ n => List.range n)
        ⟨[], [], 8, 8, [], [], [], 4/5, 1/10, 1/10, 0, false, true, true⟩
        id (List.range 10)).1.length +
      (split_and_tokenize (fun _ n => List.range n)
        ⟨[], [], 8, 8, [], [], [], 4/5, 1/10, 1/10, 0, false, true, true⟩
        id (List.range 10)).2.1.length +
      (split_and_tokenize (fun _ n => List.range n)
        ⟨[], [], 8, 8, [], [], [], 4/5, 1/10, 1/10, 0, false, true, true⟩
        id (List.range 10)).2.2.length = 10 :=
  (split_partition (fun _ n => List.range n) (fun _ n => List.Perm.refl _)
    ⟨[], [], 8, 8, [], [], [], 4/5, 1/10, 1/10, 0, false, true, true⟩
    id (List.range 10)).2

/-- `entity/config_entity.py::DataIngestionConfig` (paths already normalized). -/
structure DataIngestionConfig where
  root_dir : List Char
  source_url : List Char
  raw_filepath : List Char
  dvc_raw_filepath : List Char
  ingested_filepath : List Char
  dvc_ingested_filepath : List Char
  local_enabled : Bool
  s3_enabled : Bool
deriving DecidableEq, Repr

/-- `DataIngestionConfig.raw_s3_key`: the raw path's POSIX form. -/
def DataIngestionConfig.raw_s3_key (c : DataIngestionConfig) : List Char :=
  c.raw_filepath

/-- `DataIngestionConfig.dvc_raw_s3_key`: the DVC raw path's POSIX form. -/
def DataIngestionConfig.dvc_raw_s3_key (c : DataIngestionConfig) : List Char :=
  c.dvc_raw_filepath

/-- `DataIngestionConfig.ingested_s3_key`: the ingested path's POSIX form. -/
def DataIngestionConfig.ingested_s3_key (c : DataIngestionConfig) : List Char :=
  c.ingested_filepath

/-- `entity/artifact_entity.py::DataIngestionArtifact`: the frozen result
record with six nullable location fields. -/
structure DataIngestionArtifact where
  raw_filepath : Option (List Char)
  dvc_raw_filepath : Option (List Char)
  ingested_filepath : Option (List Char)
  raw_s3_uri : Option (List Char)
  dvc_raw_s3_uri : Option (List Char)
  ingested_s3_uri : Option (List Char)
deriving DecidableEq, Repr

/-- `S3Handler.upload_file`: raises `FileNotFoundError` (wrapped in a
`TextSummarizerError`) when the local file is absent, otherwise uploads and
returns `None`. -/
def upload_file (fs : List (List Char)) (local_path s3_key : List Char) :
    Except PyErr Unit :=
  if local_path ∈ fs then .ok ()
  else .error (.tsError (.fileNotFoundError local_path))

/-- The suffix `".csv"` searched for in the archive's name list. -/
def csvSuffix : List Char := ['.', 'c', 's', 'v']

/-- Python `s.endswith(suf)`. -/
def endsWithList (suf s : List Char) : Bool :=
  leadsWith suf.reverse s.reverse

/-- The message of the `ValueError` raised when the archive has no CSV. -/
def noCsvMsg : List Char :=
  ['N', 'o', ' ', 'C', 'S', 'V', ' ', 'f', 'i', 'l', 'e', ' ', 'f', 'o', 'u',
   'n', 'd', ' ', 'i', 'n', ' ', 'Z', 'I', 'P', ' ', 'a', 'r', 'c', 'h', 'i',
   'v', 'e', '.']

/-- `data_ingestion.py::DataIngestion._extract_zip_to_dataframe`: opens the
archive at `zip_path` (failing when the file is absent), takes the first
entry whose name ends in `".csv"` and parses it; every failure is wrapped in
a `TextSummarizerError`. The archive's contents are the association list
`entries` from entry name to parsed table. -/
def extract_zip (zip_path : List Char) (fs : List (List Char))
    (entries : List (List Char × α)) : Except PyErr α :=
  if zip_path ∈ fs then
    match entries.find? (fun e => endsWithList csvSuffix e.1) with
    | some e => .ok e.2
    | none => .error (.tsError (.valueError noCsvMsg))
  else
    .error (.tsError (.fileNotFoundError zip_path))

/-- Body of `data_ingestion.py::DataIngestion._persist_data`, before the
enclosing `try/except` wrap.  The local branch records the raw path, copies
the raw archive to the DVC path (failing when the source is absent) and
writes the ingested table; the remote branch — run when the flag is set and
a handler is supplied — uploads the raw archive and the DVC copy (note:
`upload_file` returns `None`, so both URI fields stay null) and streams the
table, recording the streamed URI.  The filesystem is the list `fs` of
existing paths. -/
def persist_body (conf : DataIngestionConfig) (handler : Option S3HandlerConfig)
    (fs : List (List Char)) (df : α) :
    Except PyErr (DataIngestionArtifact × List (List Char)) :=
  let step1 : Except PyErr (DataIngestionArtifact × List (List Char)) :=
    if conf.local_enabled then
      if conf.raw_filepath ∈ fs then
        .ok (⟨some conf.raw_filepath, some conf.dvc_raw_filepath,
            some conf.ingested_filepath, none, none, none⟩,
          conf.ingested_filepath :: conf.dvc_raw_filepath :: fs)
      else
        .error (.fileNotFoundError conf.raw_filepath)
    else
      .ok (⟨none, none, none, none, none, none⟩, fs)
  match step1 with
  | .error e => .error e
  | .ok (paths1, fs1) =>
    match handler with
    | some hcfg =>
      if conf.s3_enabled then
        match upload_file fs1 conf.raw_filepath conf.raw_s3_key with
        | .error e => .error e
        | .ok _ =>
          match upload_file fs1 conf.dvc_raw_filepath conf.dvc_raw_s3_key with
          | .error e => .error e
          | .ok _ =>
            .ok ({ paths1 with
                ingested_s3_uri := some (stream_csv hcfg conf.ingested_s3_key).2 }, fs1)
      else
        .ok (paths1, fs1)
    | none => .ok (paths1, fs1)

/-- `DataIngestion._persist_data`: the body with its `try/except` wrap, which
re-wraps any escaping error in one more `TextSummarizerError`. -/
def _persist_data (conf : DataIngestionConfig) (handler : Option S3HandlerConfig)
    (fs : List (List Char)) (df : α) :
    Except PyErr (DataIngestionArtifact × List (List Char)) :=
  (persist_body conf handler fs df).mapError PyErr.tsError

/-- `DataIngestion.run_ingestion`: download (default `retries = 3`,
`delay = 2.0`), extract, persist, wrap any escaping error once more. -/
def run_ingestion (conf : DataIngestionConfig) (handler : Option S3HandlerConfig)
    (net : List Char → Nat → Except PyErr Unit) (fs : List (List Char))
    (entries : List (List Char × α)) : Except PyErr DataIngestionArtifact :=
  let dl := download_file net conf.source_url (decide (conf.raw_filepath ∈ fs)) 3 2
  match dl.raised with
  | some e => .error (.tsError e)
  | none =>
    let fs1 := if dl.wrote then conf.raw_filepath :: fs else fs
    match extract_zip conf.raw_filepath fs1 entries with
    | .error e => .error (.tsError e)
    | .ok df =>
      match _persist_data conf handler fs1 df with
      | .error e => .error (.tsError e)
      | .ok (paths, _) => .ok paths

lemma persist_body_disabled (conf : DataIngestionConfig)
    (handler : Option S3HandlerConfig) (fs : List (List Char)) (df : α)
    (hl : conf.local_enabled = false) (hs : conf.s3_enabled = false) :
    persist_body conf handler fs df =
      .ok (⟨none, none, none, none, none, none⟩, fs) := by
  unfold persist_body
  rw [hl]
  cases handler <;> simp [hs]

/-- C8: with local persistence and remote persistence both disabled, and
download and extraction succeeding, `run_ingestion` succeeds and returns an
artifact whose six location fields are all null. -/
theorem ingestion_disabled_all_none (conf : DataIngestionConfig)
    (handler : Option S3HandlerConfig) (net : List Char → Nat → Except PyErr Unit)
    (fs : List (List Char)) (entries : List (List Char × α))
    (hl : conf.local_enabled = false) (hs : conf.s3_enabled = false)
    (hdl : (download_file net conf.source_url
      (decide (conf.raw_filepath ∈ fs)) 3 2).raised = none)
    (hraw : conf.raw_filepath ∈ fs ∨
      (download_file net conf.source_url
        (decide (conf.raw_filepath ∈ fs)) 3 2).wrote = true)
    (hcsv : (entries.find? (fun e => endsWithList csvSuffix e.1)).isSome = true) :
    run_ingestion conf handler net fs entries =
      .ok ⟨none, none, none, none, none, none⟩ := by
  have hzip : conf.raw_filepath ∈
      (if (download_file net conf.source_url
          (decide (conf.raw_filepath ∈ fs)) 3 2).wrote then
        conf.raw_filepath :: fs else fs) := by
    rcases hraw with h | h
    · split <;> simp [h]
    · rw [h]
      simp
  obtain ⟨ent, hent⟩ := Option.isSome_iff_exists.mp hcsv
  simp only [run_ingestion, hdl]
  simp only [extract_zip, if_pos hzip, hent]
  simp only [_persist_data, persist_body_disabled conf handler _ _ hl hs]
  rfl

/-- Witness for C8 at a concrete configuration with both flags off, the
raw archive already on disk, and an archive holding one CSV entry. -/
theorem ingestion_disabled_all_none_witness :
    run_ingestion (α := Nat) ⟨[], ['u'], ['r'], ['d'], ['i'], ['j'], false, false⟩
      none (fun _ _ => .ok ()) [['r']] [(['a', '.', 'c', 's', 'v'], 0)] =
      .ok ⟨none, none, none, none, none, none⟩ :=
  ingestion_disabled_all_none ⟨[], ['u'], ['r'], ['d'], ['i'], ['j'], false, false⟩
    none (fun _ _ => .ok ()) [['r']] [(['a', '.', 'c', 's', 'v'], 0)]
    rfl rfl (by decide) (Or.inl (by decide)) (by decide)

/-- C9: with local persistence disabled, remote persistence enabled and a
handler supplied, if the raw archive exists but its DVC copy does not, the
persist step fails with a wrapped `FileNotFoundError` on the DVC path: the
copy to the DVC path happens only inside the local branch, while the remote
branch uploads that path unconditionally. -/
theorem ingestion_remote_only_missing_dvc (conf : DataIngestionConfig)
    (hcfg : S3HandlerConfig) (fs : List (List Char)) (df : α)
    (hl : conf.local_enabled = false) (hs : conf.s3_enabled = true)
    (hraw : conf.raw_filepath ∈ fs) (hdvc : conf.dvc_raw_filepath ∉ fs) :
    _persist_data conf (some hcfg) fs df =
      .error (.tsError (.tsError (.fileNotFoundError conf.dvc_raw_filepath))) ∧
    rootCause (.tsError (.tsError (.fileNotFoundError conf.dvc_raw_filepath))) =
      .fileNotFoundError conf.dvc_raw_filepath := by
  constructor
  · unfold _persist_data persist_body
    rw [hl]
    simp [upload_file, hs, hraw, hdvc, Except.mapError]
  · rfl

/-- Witness for C9 at a concrete remote-only configuration whose DVC copy
is absent from the filesystem. -/
theorem ingestion_remote_only_missing_dvc_witness :
    _persist_data (α := Nat) ⟨[], ['u'], ['r'], ['d'], ['i'], ['j'], false, true⟩
      (some ⟨[], ['b'], []⟩) [['r']] 0 =
      .error (.tsError (.tsError (.fileNotFoundError ['d']))) :=
  (ingestion_remote_only_missing_dvc
    ⟨[], ['u'], ['r'], ['d'], ['i'], ['j'], false, true⟩
    ⟨[], ['b'], []⟩ [['r']] 0 rfl rfl (by decide) (by decide)).1
